import Mathlib

/-!
Verification of the USFWS Goose Mark-Resight data-extract pipeline.

The definitions below are a shallow embedding of the transformation steps of
`USFWS_Goose_Mark-Resight_DataExtract` (a pandas/pyjanitor script): timezone
normalization of datetime columns, derived metadata fields, the
metadata × observation-point inner join, coordinate and total derivation,
the dusky-neckband row filter and its two exports, the wide-to-long flock
pivot, taxonomy enrichment, and the flock long join.
-/

set_option autoImplicit false

namespace GooseMarkResight

/-- Zone state of a pandas datetime Series: either naive (`datetime64[ns]`) or
zone-aware with a named timezone (`datetime64[ns, tz]`). Zone-awareness is a
property of the whole Series (its dtype), as in pandas. -/
inductive SeriesTz where
  | naive : SeriesTz
  | aware (tz : String) : SeriesTz
  deriving DecidableEq, Repr

/-- A pandas datetime Series. For a naive Series the entries are wall-clock
instants (minutes since epoch); for an aware Series they are UTC instants.
`none` is `NaT`. pytz offsets are modelled as fixed per-zone offsets (DST is
not modelled; no claim depends on offset arithmetic). -/
structure DtSeries where
  tz : SeriesTz
  values : List (Option Int)
  deriving DecidableEq, Repr

/-- Fixed UTC offset in minutes for the timezone names the script uses. -/
def tz_offset : String → Int
  | "US/Pacific" => -480
  | _ => 0

/-- pandas `Series.dt.tz_localize`: attaches a zone to a naive Series,
reinterpreting each wall-clock value in that zone (the stored value becomes
the UTC instant). Raises `TypeError` if the Series is already zone-aware. -/
def tz_localize (tz : String) (s : DtSeries) : Except String DtSeries :=
  match s.tz with
  | SeriesTz.naive =>
      Except.ok ⟨SeriesTz.aware tz, s.values.map (Option.map (fun w => w - tz_offset tz))⟩
  | SeriesTz.aware _ =>
      Except.error "Already tz-aware, use tz_convert to convert."

/-- pandas `Series.dt.tz_convert`: changes the zone of an aware Series; the
stored UTC instants are unchanged. Raises on a naive Series. -/
def tz_convert (tz : String) (s : DtSeries) : Except String DtSeries :=
  match s.tz with
  | SeriesTz.naive =>
      Except.error "Cannot convert tz-naive timestamps, use tz_localize to localize"
  | SeriesTz.aware _ => Except.ok ⟨SeriesTz.aware tz, s.values⟩

/-- A DataFrame restricted to its datetime columns: an association list from
column name to Series, in column order. -/
abbrev DtFrame := List (String × DtSeries)

/-- Column read, `df[name]`. -/
def dfGet : DtFrame → String → Option DtSeries
  | [], _ => none
  | (k, v) :: rest, name => if k = name then some v else dfGet rest name

/-- pandas column assignment `df[name] = s`: replaces the column when present,
else appends it at the end. -/
def dfSet : DtFrame → String → DtSeries → DtFrame
  | [], name, s => [(name, s)]
  | (k, v) :: rest, name, s =>
      if k = name then (k, s) :: rest else (k, v) :: dfSet rest name s

/-- The script's `change_timezone_of_field(df, source_date_time_field,
new_date_time_field_suffix, source_timezone, new_timezone)`: localizes the
source field in place to the source timezone, then writes the converted Series
to a new field named source field plus suffix. -/
def change_timezone_of_field (df : DtFrame) (source_date_time_field : String)
    (new_date_time_field_suffix : String) (source_timezone new_timezone : String) :
    Except String DtFrame :=
  match dfGet df source_date_time_field with
  | none => Except.error "KeyError"
  | some s =>
    match tz_localize source_timezone s with
    | Except.error e => Except.error e
    | Except.ok sLoc =>
      let df1 := dfSet df source_date_time_field sLoc
      let new_date_time_field := source_date_time_field ++ new_date_time_field_suffix
      match tz_convert new_timezone sLoc with
      | Except.error e => Except.error e
      | Except.ok sConv => Except.ok (dfSet df1 new_date_time_field sConv)

theorem dfGet_dfSet_same (df : DtFrame) (name : String) (s : DtSeries) :
    dfGet (dfSet df name s) name = some s := by
  induction df with
  | nil => simp [dfSet, dfGet]
  | cons p rest ih =>
      obtain ⟨k, v⟩ := p
      by_cases h : k = name <;> simp [dfSet, dfGet, h, ih]

theorem dfGet_dfSet_other (df : DtFrame) (name m : String) (s : DtSeries)
    (h : m ≠ name) : dfGet (dfSet df name s) m = dfGet df m := by
  have h' : ¬ name = m := fun hh => h hh.symm
  induction df with
  | nil => simp [dfSet, dfGet, h']
  | cons p rest ih =>
      obtain ⟨k, v⟩ := p
      by_cases hk : k = name
      · subst hk
        simp [dfSet, dfGet, h']
      · simp only [dfSet, if_neg hk]
        by_cases hm : k = m <;> simp [dfGet, hm, ih]

theorem map_unlocalize (off : Int) (l : List (Option Int)) :
    (l.map (Option.map (fun w => w - off))).map (Option.map (fun w => w + off)) = l := by
  induction l with
  | nil => rfl
  | cons x xs ih =>
      cases x <;> simp [ih]

/-- Example frame with one naive timestamp column. -/
def exNaiveFrame : DtFrame := [("EffortDate", ⟨SeriesTz.naive, [some 0]⟩)]

/-- Example frame whose timestamp column is already zone-aware. -/
def exAwareFrame : DtFrame := [("EffortDate", ⟨SeriesTz.aware "UTC", [some 0]⟩)]

/-- C4 counterexample: on a one-column frame holding a naive timestamp, the
conversion step succeeds but the source field afterwards differs from the
source field before — `change_timezone_of_field` localizes the source field in
place, so its values are not exactly what they were before. -/
theorem change_timezone_alters_source_field :
    (∃ df', change_timezone_of_field exNaiveFrame "EffortDate" "_Pacific" "UTC" "US/Pacific"
        = Except.ok df' ∧ dfGet df' "EffortDate" ≠ dfGet exNaiveFrame "EffortDate") := by
  refine ⟨[("EffortDate", ⟨SeriesTz.aware "UTC", [some 0]⟩),
           ("EffortDate_Pacific", ⟨SeriesTz.aware "US/Pacific", [some 0]⟩)], rfl, by decide⟩

/-- C4 (amended): when the timezone conversion step succeeds and the suffix is
non-degenerate, it adds a new field named source field plus suffix holding the
converted Series and does not remove the source field; the source field is,
however, localized in place to the source zone — same wall-clock values, now
zone-aware — rather than left unaltered. -/
theorem change_timezone_additive (df df' : DtFrame) (source sfx srcTz newTz : String)
    (hok : change_timezone_of_field df source sfx srcTz newTz = Except.ok df')
    (hne : source ++ sfx ≠ source) :
    ∃ s sLoc sConv,
      dfGet df source = some s ∧ s.tz = SeriesTz.naive ∧
      tz_localize srcTz s = Except.ok sLoc ∧
      dfGet df' source = some sLoc ∧
      sLoc.values.map (Option.map (fun w => w + tz_offset srcTz)) = s.values ∧
      tz_convert newTz sLoc = Except.ok sConv ∧
      dfGet df' (source ++ sfx) = some sConv := by
  unfold change_timezone_of_field at hok
  cases hget : dfGet df source with
  | none => rw [hget] at hok; exact absurd hok (by simp)
  | some s =>
      rw [hget] at hok
      obtain ⟨stz, svals⟩ := s
      cases stz with
      | aware z => exact absurd hok (by simp [tz_localize])
      | naive =>
          simp only [tz_localize, tz_convert] at hok
          injection hok with hdf
          subst hdf
          refine ⟨⟨SeriesTz.naive, svals⟩,
            ⟨SeriesTz.aware srcTz, svals.map (Option.map (fun w => w - tz_offset srcTz))⟩,
            ⟨SeriesTz.aware newTz, svals.map (Option.map (fun w => w - tz_offset srcTz))⟩,
            rfl, rfl, by simp [tz_localize], ?_, map_unlocalize _ _, by simp [tz_convert], ?_⟩
          · rw [dfGet_dfSet_other _ _ _ _ (fun hh => hne hh.symm), dfGet_dfSet_same]
          · rw [dfGet_dfSet_same]

/-- C7: localization succeeds exactly on a naive Series; on a zone-aware
Series `tz_localize` raises, and the conversion step for that field aborts
with an error instead of converting it a second time. -/
theorem localize_requires_naive (df : DtFrame) (source sfx srcTz newTz z : String)
    (s : DtSeries) (hcol : dfGet df source = some s) :
    (s.tz = SeriesTz.aware z →
      (∃ e, tz_localize srcTz s = Except.error e) ∧
      (∃ e, change_timezone_of_field df source sfx srcTz newTz = Except.error e)) ∧
    ((∃ s1, tz_localize srcTz s = Except.ok s1) ↔ s.tz = SeriesTz.naive) := by
  obtain ⟨stz, svals⟩ := s
  constructor
  · intro htz
    simp only at htz
    subst htz
    refine ⟨⟨_, rfl⟩, ⟨"Already tz-aware, use tz_convert to convert.", ?_⟩⟩
    unfold change_timezone_of_field
    rw [hcol]
    rfl
  · cases stz with
    | naive => simp [tz_localize]
    | aware z' => simp [tz_localize]

/-- Witness for C7 at a concrete zone-aware frame. -/
theorem localize_requires_naive_witness :
    ∃ e, change_timezone_of_field exAwareFrame "EffortDate" "_Pacific" "UTC" "US/Pacific"
      = Except.error e :=
  ((localize_requires_naive exAwareFrame "EffortDate" "_Pacific" "UTC" "US/Pacific" "UTC"
      ⟨SeriesTz.aware "UTC", [some 0]⟩ rfl).1 rfl).2

/-- Witness for C4 (amended) at a concrete naive frame. -/
theorem change_timezone_additive_witness :
    ∃ df', change_timezone_of_field exNaiveFrame "EffortDate" "_Pacific" "UTC" "US/Pacific"
        = Except.ok df' ∧ dfGet df' ("EffortDate" ++ "_Pacific") ≠ none := by
  have hok : change_timezone_of_field exNaiveFrame "EffortDate" "_Pacific" "UTC" "US/Pacific"
      = Except.ok [("EffortDate", ⟨SeriesTz.aware "UTC", [some 0]⟩),
                   ("EffortDate_Pacific", ⟨SeriesTz.aware "US/Pacific", [some 0]⟩)] := rfl
  obtain ⟨s, sLoc, sConv, -, -, -, -, -, -, hnew⟩ :=
    change_timezone_additive exNaiveFrame _ "EffortDate" "_Pacific" "UTC" "US/Pacific"
      hok (by decide)
  exact ⟨_, hok, by rw [hnew]; simp⟩

/-- Nullable decimal-degree coordinate value. -/
abbrev Coord := Option ℚ

/-- One row of the survey-metadata layer (`sedfMetadata` and its date-filtered
slice `sedfMetadataYYYY`), restricted to the textual fields the derivations
read; datetime columns are modelled separately by `DtFrame`, and audit/shape
columns play no role in any transformation. -/
structure MetadataRow where
  globalid : String
  SiteName : Option String := none
  SiteNameOther : Option String := none
  Observer : Option String := none
  ObserverOther : Option String := none
  EffortDate_Text : Option String := none
  deriving DecidableEq

/-- One row of the observation-point layer (`sedfObservationPoint`):
per-species counts, measured and prepopulated coordinates, the 30 dusky
collar slots, and the free-text fields carried into exports. -/
structure ObservationPointRow where
  globalid : String
  parentglobalid : String
  DuskyCount : Option Int := none
  WuskyCount : Option Int := none
  WesternCount : Option Int := none
  TavLessCount : Option Int := none
  TavCount : Option Int := none
  LessCount : Option Int := none
  AleutianCount : Option Int := none
  CacklingCount : Option Int := none
  UnknownCanadaCount : Option Int := none
  UnknownCacklerCount : Option Int := none
  WhiteFrontedCount : Option Int := none
  SnowCount : Option Int := none
  RossCount : Option Int := none
  UnknownGooseCount : Option Int := none
  TrumpeterCount : Option Int := none
  TundraCount : Option Int := none
  UnknownSwanCount : Option Int := none
  Latitude : Coord := none
  Longitude : Coord := none
  Latitude_Prepopulated : Coord := none
  Longitude_Prepopulated : Coord := none
  EffortTime : Option String := none
  LocationDescription : Option String := none
  LocationOther : Option String := none
  EffortNotes : Option String := none
  DuskyBandNote : Option String := none
  DuskyCollar1 : Option String := none
  DuskyCollar2 : Option String := none
  DuskyCollar3 : Option String := none
  DuskyCollar4 : Option String := none
  DuskyCollar5 : Option String := none
  DuskyCollar6 : Option String := none
  DuskyCollar7 : Option String := none
  DuskyCollar8 : Option String := none
  DuskyCollar9 : Option String := none
  DuskyCollar10 : Option String := none
  DuskyCollar11 : Option String := none
  DuskyCollar12 : Option String := none
  DuskyCollar13 : Option String := none
  DuskyCollar14 : Option String := none
  DuskyCollar15 : Option String := none
  DuskyCollar16 : Option String := none
  DuskyCollar17 : Option String := none
  DuskyCollar18 : Option String := none
  DuskyCollar19 : Option String := none
  DuskyCollar20 : Option String := none
  DuskyCollar21 : Option String := none
  DuskyCollar22 : Option String := none
  DuskyCollar23 : Option String := none
  DuskyCollar24 : Option String := none
  DuskyCollar25 : Option String := none
  DuskyCollar26 : Option String := none
  DuskyCollar27 : Option String := none
  DuskyCollar28 : Option String := none
  DuskyCollar29 : Option String := none
  DuskyCollar30 : Option String := none
  deriving DecidableEq

/-- pandas `Series.isin(l)` applied to a possibly-null site name: a null is a
member of no list. -/
def siteIsin (s : Option String) (l : List String) : Bool :=
  match s with
  | none => false
  | some x => decide (x ∈ l)

/-- The script's `ObserverText` population: the column is initialized to
`Observer`, then rows whose `Observer` equals the sentinel `"Other"` are
overwritten with `ObserverOther`. -/
def ObserverText (r : MetadataRow) : Option String :=
  if r.Observer = some "Other" then r.ObserverOther else r.Observer

/-- Site names assigned State `"WA"`. -/
def WA_filter : List String :=
  ["Willapa NWR", "Julia Butler Hansen Refuge for the Columbian White-tailed Deer",
   "Ridgefield NWR"]

/-- Site names assigned State `"OR"`. -/
def OR_filter : List String :=
  ["Lewis and Clark NWR", "Tualatin River NWR", "Wapato Lake NWR", "Baskett Slough NWR",
   "Ankeny NWR", "William L. Finley NWR", "Nestucca Bay NWR"]

/-- The script's `State` population: the column starts unset; rows whose
`SiteName` is in `WA_filter` are set to `"WA"`, then rows whose `SiteName` is
in `OR_filter` are set to `"OR"`. -/
def State (r : MetadataRow) : Option String :=
  let s0 : Option String := none
  let s1 := if siteIsin r.SiteName WA_filter then some "WA" else s0
  if siteIsin r.SiteName OR_filter then some "OR" else s1

/-- pandas `pd.merge(l, r, how="inner", left_on=kl, right_on=kr)`, as the
ordered list of matching row pairs; the columns of both sides are kept side by
side (the `_x`/`_y` suffixing of colliding names is rendered by keeping the
two records of a pair distinct). -/
def innerJoin {α β κ : Type} [DecidableEq κ] (l : List α) (r : List β)
    (kl : α → κ) (kr : β → κ) : List (α × β) :=
  l.bind (fun a => (r.filter (fun b => decide (kl a = kr b))).map (fun b => (a, b)))

/-- One row of `sedfMetadataYYYY_ObservationPoint`: metadata columns (side
`_x`) paired with observation-point columns (side `_y`). -/
abbrev JoinedRow := MetadataRow × ObservationPointRow

/-- The metadata × observation-point inner join, on `globalid` (left) and
`parentglobalid` (right). -/
def sedfMetadataYYYY_ObservationPoint (metadata : List MetadataRow)
    (obs : List ObservationPointRow) : List JoinedRow :=
  innerJoin metadata obs (fun m => m.globalid) (fun o => o.parentglobalid)

/-- Site names whose observation points carry prepopulated coordinates. -/
def Prepopulated_filter : List String :=
  ["Ridgefield NWR", "Tualatin River NWR", "Wapato Lake NWR"]

/-- The script's `LatitudeDD` population: the column starts unset and three
disjoint masked assignments fill it — prepopulated site with non-null
`Latitude_Prepopulated` gets the prepopulated value, prepopulated site with a
null one gets the measured `Latitude`, and every other site gets the measured
`Latitude`. -/
def LatitudeDD (r : JoinedRow) : Coord :=
  let v0 : Coord := none
  let v1 := if siteIsin r.1.SiteName Prepopulated_filter ∧ r.2.Latitude_Prepopulated.isSome
            then r.2.Latitude_Prepopulated else v0
  let v2 := if siteIsin r.1.SiteName Prepopulated_filter ∧ r.2.Latitude_Prepopulated.isNone
            then r.2.Latitude else v1
  if ¬ siteIsin r.1.SiteName Prepopulated_filter then r.2.Latitude else v2

/-- The script's `LongitudeDD` population, mirroring `LatitudeDD` on the
longitude columns. -/
def LongitudeDD (r : JoinedRow) : Coord :=
  let v0 : Coord := none
  let v1 := if siteIsin r.1.SiteName Prepopulated_filter ∧ r.2.Longitude_Prepopulated.isSome
            then r.2.Longitude_Prepopulated else v0
  let v2 := if siteIsin r.1.SiteName Prepopulated_filter ∧ r.2.Longitude_Prepopulated.isNone
            then r.2.Longitude else v1
  if ¬ siteIsin r.1.SiteName Prepopulated_filter then r.2.Longitude else v2

/-- The 17 count columns of the script's `col_list`, in order. -/
def col_list (o : ObservationPointRow) : List (Option Int) :=
  [o.DuskyCount, o.WuskyCount, o.WesternCount, o.TavLessCount, o.TavCount, o.LessCount,
   o.AleutianCount, o.CacklingCount, o.UnknownCanadaCount, o.UnknownCacklerCount,
   o.WhiteFrontedCount, o.SnowCount, o.RossCount, o.UnknownGooseCount, o.TrumpeterCount,
   o.TundraCount, o.UnknownSwanCount]

/-- The script's `Total` column: pandas `df[col_list].sum(axis=1)` with the
default `skipna=True`, i.e. the sum of the present values of the 17 count
columns (an all-null row sums to 0). -/
def Total (r : JoinedRow) : Int :=
  ((col_list r.2).filterMap id).sum

theorem sum_filterMap_getD (l : List (Option Int)) :
    (l.filterMap id).sum = (l.map (fun v => v.getD 0)).sum := by
  induction l with
  | nil => rfl
  | cons x xs ih => cases x <;> simp [ih]

/-- C1: on every joined row, the derived `Total` equals the sum of the 17
named count fields, a null count contributing 0. -/
theorem total_eq_sum_of_counts (r : JoinedRow) :
    Total r = r.2.DuskyCount.getD 0 + r.2.WuskyCount.getD 0 + r.2.WesternCount.getD 0 +
      r.2.TavLessCount.getD 0 + r.2.TavCount.getD 0 + r.2.LessCount.getD 0 +
      r.2.AleutianCount.getD 0 + r.2.CacklingCount.getD 0 + r.2.UnknownCanadaCount.getD 0 +
      r.2.UnknownCacklerCount.getD 0 + r.2.WhiteFrontedCount.getD 0 + r.2.SnowCount.getD 0 +
      r.2.RossCount.getD 0 + r.2.UnknownGooseCount.getD 0 + r.2.TrumpeterCount.getD 0 +
      r.2.TundraCount.getD 0 + r.2.UnknownSwanCount.getD 0 := by
  rw [Total, sum_filterMap_getD, col_list]
  simp only [List.map_cons, List.map_nil, List.sum_cons, List.sum_nil]
  ring

/-- C8: on every metadata row, the resolved `ObserverText` is the free-text
`ObserverOther` exactly when the `Observer` selection is the sentinel
`"Other"`, and the selection itself in every other case. -/
theorem observer_resolution (r : MetadataRow) :
    (r.Observer = some "Other" → ObserverText r = r.ObserverOther) ∧
    (r.Observer ≠ some "Other" → ObserverText r = r.Observer) := by
  constructor <;> intro h <;> simp [ObserverText, h]

/-- Witness for C8, matching the spec's end-to-end scenario. -/
theorem observer_resolution_witness :
    ObserverText { globalid := "m1", Observer := some "Other",
                   ObserverOther := some "J. Smith" } = some "J. Smith" :=
  (observer_resolution _).1 rfl

theorem WA_not_OR (s : Option String) (h : siteIsin s WA_filter = true) :
    siteIsin s OR_filter = false := by
  cases s with
  | none => simpa [siteIsin] using h
  | some x =>
      simp only [siteIsin, decide_eq_true_eq, WA_filter, List.mem_cons,
        List.not_mem_nil, or_false] at h
      rcases h with h | h | h <;> subst h <;> decide

/-- C9: on every metadata row, the resolved `State` is `"WA"` for sites in the
Washington membership set, `"OR"` for sites in the Oregon membership set, and
stays unset for sites in neither. -/
theorem state_assignment (r : MetadataRow) :
    (siteIsin r.SiteName WA_filter = true → State r = some "WA") ∧
    (siteIsin r.SiteName OR_filter = true → State r = some "OR") ∧
    (siteIsin r.SiteName WA_filter = false → siteIsin r.SiteName OR_filter = false →
      State r = none) := by
  refine ⟨?_, ?_, ?_⟩
  · intro h
    have hOR := WA_not_OR r.SiteName h
    simp [State, h, hOR]
  · intro h
    simp [State, h]
  · intro h1 h2
    simp [State, h1, h2]

/-- Witness for C9, matching the spec's end-to-end scenario. -/
theorem state_assignment_witness :
    State { globalid := "m1", SiteName := some "Willapa NWR" } = some "WA" ∧
    State { globalid := "m2", SiteName := some "Ankeny NWR" } = some "OR" ∧
    State { globalid := "m3", SiteName := some "Unknown Refuge" } = none :=
  ⟨(state_assignment _).1 (by decide), (state_assignment _).2.1 (by decide),
   (state_assignment _).2.2 (by decide) (by decide)⟩

/-- C2: on every joined row, the resolved coordinates prefer the prepopulated
latitude/longitude exactly when the site is in `Prepopulated_filter` and the
prepopulated value is non-null; in every other case they equal the measured
latitude/longitude. -/
theorem coordinate_resolution (r : JoinedRow) :
    ((siteIsin r.1.SiteName Prepopulated_filter = true ∧
        r.2.Latitude_Prepopulated.isSome = true) →
      LatitudeDD r = r.2.Latitude_Prepopulated) ∧
    (¬ (siteIsin r.1.SiteName Prepopulated_filter = true ∧
        r.2.Latitude_Prepopulated.isSome = true) →
      LatitudeDD r = r.2.Latitude) ∧
    ((siteIsin r.1.SiteName Prepopulated_filter = true ∧
        r.2.Longitude_Prepopulated.isSome = true) →
      LongitudeDD r = r.2.Longitude_Prepopulated) ∧
    (¬ (siteIsin r.1.SiteName Prepopulated_filter = true ∧
        r.2.Longitude_Prepopulated.isSome = true) →
      LongitudeDD r = r.2.Longitude) := by
  refine ⟨?_, ?_, ?_, ?_⟩
  · rintro ⟨hsite, hpre⟩
    simp [LatitudeDD, hsite, hpre, Option.isNone_iff_eq_none,
      Option.isSome_iff_ne_none.mp hpre]
  · intro h
    by_cases hsite : siteIsin r.1.SiteName Prepopulated_filter = true
    · have hnone : r.2.Latitude_Prepopulated = none := by
        cases hh : r.2.Latitude_Prepopulated with
        | none => rfl
        | some a => exact absurd ⟨hsite, by rw [hh]; rfl⟩ h
      simp [LatitudeDD, hsite, hnone]
    · simp [LatitudeDD, hsite]
  · rintro ⟨hsite, hpre⟩
    simp [LongitudeDD, hsite, hpre, Option.isNone_iff_eq_none,
      Option.isSome_iff_ne_none.mp hpre]
  · intro h
    by_cases hsite : siteIsin r.1.SiteName Prepopulated_filter = true
    · have hnone : r.2.Longitude_Prepopulated = none := by
        cases hh : r.2.Longitude_Prepopulated with
        | none => rfl
        | some a => exact absurd ⟨hsite, by rw [hh]; rfl⟩ h
      simp [LongitudeDD, hsite, hnone]
    · simp [LongitudeDD, hsite]

/-- Witness for C2, matching the spec's end-to-end scenario: at Ridgefield NWR
with a prepopulated latitude present, the resolved latitude is the
prepopulated one. -/
theorem coordinate_resolution_witness :
    LatitudeDD ({ globalid := "m1", SiteName := some "Ridgefield NWR" },
                { globalid := "o1", parentglobalid := "m1",
                  Latitude := some (458/10 : ℚ),
                  Latitude_Prepopulated := some (4581/100 : ℚ) })
      = some (4581/100 : ℚ) :=
  (coordinate_resolution _).1 ⟨by decide, by decide⟩

/-- One row of the pivoted flock table before enrichment: the identifier, the
species short name (the count column name with the literal suffix `Count`
stripped by `names_sep`), and the count value. -/
structure FlockEntry where
  globalid : String
  shortName : String
  value : Option Int
  deriving DecidableEq

/-- The 17 count columns selected for the pivot, as (short name, value) pairs
in the order `select_columns` lists them. -/
def speciesCols (o : ObservationPointRow) : List (String × Option Int) :=
  [("Dusky", o.DuskyCount), ("Wusky", o.WuskyCount), ("Western", o.WesternCount),
   ("TavLess", o.TavLessCount), ("Tav", o.TavCount), ("Less", o.LessCount),
   ("Aleutian", o.AleutianCount), ("Cackling", o.CacklingCount),
   ("UnknownCanada", o.UnknownCanadaCount), ("UnknownCackler", o.UnknownCacklerCount),
   ("WhiteFronted", o.WhiteFrontedCount), ("Snow", o.SnowCount), ("Ross", o.RossCount),
   ("UnknownGoose", o.UnknownGooseCount), ("Trumpeter", o.TrumpeterCount),
   ("Tundra", o.TundraCount), ("UnknownSwan", o.UnknownSwanCount)]

/-- pandas `query("value != 0")` on a nullable numeric column: `NaN != 0`
evaluates to true, so null values pass this filter (they are removed by the
subsequent `dropna`). -/
def valueNeZero (v : Option Int) : Bool :=
  match v with
  | none => true
  | some n => decide (n ≠ 0)

/-- `dfFlockPivotTemp`: `pivot_longer` of the 17 count columns indexed by
`globalid` (one row per count column per input row, `sort_by_appearance`),
then `filter_on("value != 0")`, then `dropna()` — the latter removes the rows
whose remaining null is the count value. -/
def dfFlockPivotTemp (obs : List ObservationPointRow) : List FlockEntry :=
  (((obs.bind (fun o => (speciesCols o).map
      (fun p => ({ globalid := o.globalid, shortName := p.1, value := p.2 } : FlockEntry))))
    ).filter (fun e => valueNeZero e.value)).filter (fun e => e.value.isSome)

/-- C3: every row of the pivoted flock table has a non-null, non-zero count,
and no entry with a null or zero count value appears in it. -/
theorem flock_pivot_counts_nonzero (obs : List ObservationPointRow) :
    (∀ e ∈ dfFlockPivotTemp obs, ∃ n, e.value = some n ∧ n ≠ 0) ∧
    (∀ g nm, ({ globalid := g, shortName := nm, value := none } : FlockEntry)
        ∉ dfFlockPivotTemp obs ∧
      ({ globalid := g, shortName := nm, value := some 0 } : FlockEntry)
        ∉ dfFlockPivotTemp obs) := by
  have hmem : ∀ e ∈ dfFlockPivotTemp obs, ∃ n, e.value = some n ∧ n ≠ 0 := by
    intro e he
    rw [dfFlockPivotTemp, List.mem_filter] at he
    obtain ⟨he', hsome⟩ := he
    rw [List.mem_filter] at he'
    obtain ⟨-, hnz⟩ := he'
    cases hv : e.value with
    | none => rw [hv] at hsome; exact absurd hsome (by simp)
    | some n =>
        refine ⟨n, rfl, ?_⟩
        rw [hv] at hnz
        simpa [valueNeZero] using hnz
  refine ⟨hmem, fun g nm => ⟨fun hc => ?_, fun hc => ?_⟩⟩
  · obtain ⟨n, hn, -⟩ := hmem _ hc
    exact absurd hn (by simp)
  · obtain ⟨n, hn, hn0⟩ := hmem _ hc
    exact hn0 (by simpa using hn.symm)

/-- Example observation point from the spec's end-to-end pivot scenario: five
dusky geese, zero wusky geese, a null cackling count, all else defaulted. -/
def exObsPivot : ObservationPointRow :=
  { globalid := "o1", parentglobalid := "m1",
    DuskyCount := some 5, WuskyCount := some 0, CacklingCount := none }

/-- Witness for C3 at the spec's scenario row. -/
theorem flock_pivot_counts_nonzero_witness :
    ∃ n, ({ globalid := "o1", shortName := "Dusky", value := some 5 } : FlockEntry).value
        = some n ∧ n ≠ 0 :=
  (flock_pivot_counts_nonzero [exObsPivot]).1
    { globalid := "o1", shortName := "Dusky", value := some 5 } (by decide)

/-- The script's static short-name → scientific-name dictionary. -/
def sciname_dict : List (String × String) :=
  [("Aleutian", "Branta hutchinsii leucopareia"),
   ("Cackling", "Branta hutchinsii minima"),
   ("Dusky", "Branta canadensis occidentalis"),
   ("Less", "Branta canadensis parvipes"),
   ("Tav", "Branta hutchinsii taverneri"),
   ("TavLess", "Branta hutchinsii taverneri x Branta canadensis parvipes"),
   ("Western", "Branta canadensis moffitti"),
   ("Wusky", "Branta canadensis moffitti x Branta canadensis occidentalis"),
   ("UnknownCackler", "Branta hutchinsii"),
   ("UnknownCanada", "Branta canadensis"),
   ("Ross", "Chen rossii"),
   ("Snow", "Chen caerulescens"),
   ("WhiteFronted", "Anser albifrons"),
   ("UnknownGoose", "Branta"),
   ("Trumpeter", "Cygnus buccinator"),
   ("UnknownSwan", "Cygnus columbianus"),
   ("Tundra", "Cygnus")]

/-- The script's static short-name → FWS taxon code dictionary (hybrids map
to the empty string). -/
def FWSTaxonCode_dict : List (String × String) :=
  [("Aleutian", "604316"), ("Cackling", "604318"), ("Dusky", "77707"),
   ("Less", "76633"), ("Tav", "604320"), ("TavLess", ""), ("Western", "76632"),
   ("Wusky", ""), ("UnknownCackler", "604603"), ("UnknownCanada", "76625"),
   ("Ross", "77746"), ("Snow", "77742"), ("WhiteFronted", "77723"),
   ("UnknownGoose", "76624"), ("Trumpeter", "76618"), ("UnknownSwan", "76612"),
   ("Tundra", "76609")]

/-- The script's static short-name → ITIS code dictionary (hybrids map to the
empty string). -/
def ITIS_dict : List (String × String) :=
  [("Aleutian", "714726"), ("Cackling", "714727"), ("Dusky", "175006"),
   ("Less", "175004"), ("Tav", "714728"), ("TavLess", ""), ("Western", "175003"),
   ("Wusky", ""), ("UnknownCackler", "714068"), ("UnknownCanada", "174999"),
   ("Ross", "175041"), ("Snow", "175038"), ("WhiteFronted", "175020"),
   ("UnknownGoose", "174998"), ("Trumpeter", "174992"), ("UnknownSwan", "174987"),
   ("Tundra", "174984")]

/-- Python dict lookup through pandas `Series.map`: a missing key yields NaN. -/
def dictMap (d : List (String × String)) (k : String) : Option String :=
  (d.find? (fun p => p.1 == k)).map (fun p => p.2)

/-- One row of `dfFlockPivot`: a pivot entry together with the three taxonomy
columns (absent until the enrichment assigns them). -/
structure FlockPivotRow where
  globalid : String
  shortName : String
  value : Option Int
  scientificName : Option String := none
  fwsTaxonCode : Option String := none
  ITISTaxonCode : Option String := none
  deriving DecidableEq

/-- The taxonomy enrichment of one row: the three taxonomy columns are set by
mapping `shortName` through the three static dictionaries. -/
def enrichTaxonomy (r : FlockPivotRow) : FlockPivotRow :=
  { r with scientificName := dictMap sciname_dict r.shortName,
           fwsTaxonCode := dictMap FWSTaxonCode_dict r.shortName,
           ITISTaxonCode := dictMap ITIS_dict r.shortName }

/-- The taxonomy enrichment of a long-form flock table, row by row. -/
def enrichTable (t : List FlockPivotRow) : List FlockPivotRow :=
  t.map enrichTaxonomy

/-- `dfFlockPivot`: copy of the pivot table with the three taxonomy columns
assigned. -/
def dfFlockPivot (obs : List ObservationPointRow) : List FlockPivotRow :=
  enrichTable ((dfFlockPivotTemp obs).map
    (fun e => { globalid := e.globalid, shortName := e.shortName, value := e.value }))

theorem enrichTaxonomy_enrichTaxonomy (r : FlockPivotRow) :
    enrichTaxonomy (enrichTaxonomy r) = enrichTaxonomy r := by
  cases r
  rfl

/-- C10: applying the taxonomy enrichment twice to any long-form flock table
yields the same table as applying it once. -/
theorem taxonomy_enrichment_idempotent (t : List FlockPivotRow) :
    enrichTable (enrichTable t) = enrichTable t := by
  induction t with
  | nil => rfl
  | cons x xs ih =>
      simp only [enrichTable, List.map_cons, List.map_map] at ih ⊢
      rw [ih, enrichTaxonomy_enrichTaxonomy]

theorem mem_innerJoin {α β κ : Type} [DecidableEq κ] (l : List α) (r : List β)
    (kl : α → κ) (kr : β → κ) (a : α) (b : β) :
    (a, b) ∈ innerJoin l r kl kr ↔ a ∈ l ∧ b ∈ r ∧ kl a = kr b := by
  simp only [innerJoin, List.mem_bind, List.mem_map, List.mem_filter,
    decide_eq_true_eq, Prod.mk.injEq]
  constructor
  · rintro ⟨a', ha', b', ⟨hb', hk⟩, rfl, rfl⟩
    exact ⟨ha', hb', hk⟩
  · rintro ⟨ha, hb, hk⟩
    exact ⟨a, ha, b, ⟨hb, hk⟩, rfl, rfl⟩

/-- One row of `dfCleanMetadata`: the metadata and derived columns selected
from the joined table for the flock long merge. -/
structure CleanMetadataRow where
  globalid_x : String
  globalid_y : String
  SiteName : Option String := none
  ObserverText : Option String := none
  EffortDate_Text : Option String := none
  EffortTime : Option String := none
  LocationDescription : Option String := none
  LocationOther : Option String := none
  EffortNotes : Option String := none
  LatitudeDD : Coord := none
  LongitudeDD : Coord := none
  deriving DecidableEq

/-- `dfCleanMetadata`: projection of the joined table onto the columns kept
for the flock long merge, with the derived columns materialized. -/
def dfCleanMetadata (j : List JoinedRow) : List CleanMetadataRow :=
  j.map (fun r =>
    { globalid_x := r.1.globalid, globalid_y := r.2.globalid,
      SiteName := r.1.SiteName,
      ObserverText := GooseMarkResight.ObserverText r.1,
      EffortDate_Text := r.1.EffortDate_Text,
      EffortTime := r.2.EffortTime,
      LocationDescription := r.2.LocationDescription,
      LocationOther := r.2.LocationOther,
      EffortNotes := r.2.EffortNotes,
      LatitudeDD := GooseMarkResight.LatitudeDD r,
      LongitudeDD := GooseMarkResight.LongitudeDD r })

/-- `dfFlockLong` before its final projection: the inner merge of the cleaned
metadata with the enriched pivot table, on `globalid_y` (left) and `globalid`
(right). -/
def dfFlockLong (cm : List CleanMetadataRow) (fp : List FlockPivotRow) :
    List (CleanMetadataRow × FlockPivotRow) :=
  innerJoin cm fp (fun m => m.globalid_y) (fun p => p.globalid)

/-- C6: in both inner joins of the script, every output row has equal join-key
values on both sides, an output pair occurs exactly when both inputs are
present and their keys agree, and an input row with no key match on the other
side contributes no output row. -/
theorem join_correctness (metadata : List MetadataRow) (obs : List ObservationPointRow)
    (cm : List CleanMetadataRow) (fp : List FlockPivotRow) :
    (∀ p ∈ sedfMetadataYYYY_ObservationPoint metadata obs,
        p.1.globalid = p.2.parentglobalid) ∧
    (∀ m o, (m, o) ∈ sedfMetadataYYYY_ObservationPoint metadata obs ↔
        m ∈ metadata ∧ o ∈ obs ∧ m.globalid = o.parentglobalid) ∧
    (∀ m ∈ metadata, (∀ o ∈ obs, m.globalid ≠ o.parentglobalid) →
        ∀ o, (m, o) ∉ sedfMetadataYYYY_ObservationPoint metadata obs) ∧
    (∀ o ∈ obs, (∀ m ∈ metadata, m.globalid ≠ o.parentglobalid) →
        ∀ m, (m, o) ∉ sedfMetadataYYYY_ObservationPoint metadata obs) ∧
    (∀ p ∈ dfFlockLong cm fp, p.1.globalid_y = p.2.globalid) ∧
    (∀ c q, (c, q) ∈ dfFlockLong cm fp ↔
        c ∈ cm ∧ q ∈ fp ∧ c.globalid_y = q.globalid) ∧
    (∀ c ∈ cm, (∀ q ∈ fp, c.globalid_y ≠ q.globalid) →
        ∀ q, (c, q) ∉ dfFlockLong cm fp) ∧
    (∀ q ∈ fp, (∀ c ∈ cm, c.globalid_y ≠ q.globalid) →
        ∀ c, (c, q) ∉ dfFlockLong cm fp) := by
  refine ⟨?_, ?_, ?_, ?_, ?_, ?_, ?_, ?_⟩
  · rintro ⟨m, o⟩ hp
    exact ((mem_innerJoin _ _ _ _ _ _).mp hp).2.2
  · intro m o
    exact mem_innerJoin _ _ _ _ _ _
  · intro m hm hnone o hc
    obtain ⟨-, ho, hk⟩ := (mem_innerJoin _ _ _ _ _ _).mp hc
    exact hnone o ho hk
  · intro o ho hnone m hc
    obtain ⟨hm, -, hk⟩ := (mem_innerJoin _ _ _ _ _ _).mp hc
    exact hnone m hm hk
  · rintro ⟨c, q⟩ hp
    exact ((mem_innerJoin _ _ _ _ _ _).mp hp).2.2
  · intro c q
    exact mem_innerJoin _ _ _ _ _ _
  · intro c hc hnone q hmem
    obtain ⟨-, hq, hk⟩ := (mem_innerJoin _ _ _ _ _ _).mp hmem
    exact hnone q hq hk
  · intro q hq hnone c hmem
    obtain ⟨hc, -, hk⟩ := (mem_innerJoin _ _ _ _ _ _).mp hmem
    exact hnone c hc hk

/-- Witness for C6: an actual matched pair in the metadata × observation-point
join has equal keys, computed on concrete one-row tables. -/
theorem join_correctness_witness :
    ({ globalid := "m1", SiteName := some "Ridgefield NWR" } : MetadataRow).globalid
      = ({ globalid := "o1", parentglobalid := "m1" } : ObservationPointRow).parentglobalid :=
  (join_correctness [{ globalid := "m1", SiteName := some "Ridgefield NWR" }]
      [{ globalid := "o1", parentglobalid := "m1" }] [] []).1
    ({ globalid := "m1", SiteName := some "Ridgefield NWR" },
     { globalid := "o1", parentglobalid := "m1" }) (by decide)

/-- The 30 `DuskyCollar` columns of an observation point, in column order. -/
def duskyCollarFields (o : ObservationPointRow) : List (Option String) :=
  [o.DuskyCollar1, o.DuskyCollar2, o.DuskyCollar3, o.DuskyCollar4, o.DuskyCollar5,
   o.DuskyCollar6, o.DuskyCollar7, o.DuskyCollar8, o.DuskyCollar9, o.DuskyCollar10,
   o.DuskyCollar11, o.DuskyCollar12, o.DuskyCollar13, o.DuskyCollar14, o.DuskyCollar15,
   o.DuskyCollar16, o.DuskyCollar17, o.DuskyCollar18, o.DuskyCollar19, o.DuskyCollar20,
   o.DuskyCollar21, o.DuskyCollar22, o.DuskyCollar23, o.DuskyCollar24, o.DuskyCollar25,
   o.DuskyCollar26, o.DuskyCollar27, o.DuskyCollar28, o.DuskyCollar29, o.DuskyCollar30]


/-- The `upper_consistent` pass on the `DuskyCollar` columns: each collar code
uppercased, nulls untouched. The pass touches only `Dusky*` text columns
(`DuskyCount` is numeric, hence skipped by the dtype guard), so it is carried
on the collar and band-note values read by the row filter and the exports. -/
def upperCollarVals (o : ObservationPointRow) : List (Option String) :=
  (duskyCollarFields o).map (Option.map String.toUpper)

/-- One `DuskyCollar` column survives `dropna(how='all', axis=1)` exactly when
some row holds a non-null value in it. -/
def collarColSurvives (j : List JoinedRow) (i : Nat) : Bool :=
  j.any (fun r => ((duskyCollarFields r.2).getD i none).isSome)

/-- Indices of the `DuskyCollar` columns kept by `dropna(how='all', axis=1)`. -/
def survivingIdx (j : List JoinedRow) : List Nat :=
  (List.range 30).filter (fun i => collarColSurvives j i)

/-- The `dfDuskyNeckband` row selection: after the all-null columns are
dropped and the `Dusky*` text uppercased, only the rows whose remaining
`DuskyCollar` columns are not all null are kept
(`~ df.filter(like='DuskyCollar').isna().all(1)`). -/
def dfDuskyNeckbandRows (j : List JoinedRow) : List JoinedRow :=
  j.filter (fun r =>
    !((survivingIdx j).map (fun i => (upperCollarVals r.2).getD i none)).all
      (fun v => v.isNone))

/-- The `str.cat` derived `Location` column: site name and location
description joined by a single space, nulls rendered as empty strings. -/
def Location (r : JoinedRow) : String :=
  r.1.SiteName.getD "" ++ " " ++ r.2.LocationDescription.getD ""

/-- One row of `dfDuskyNeckbandNWR` (refuge / Darwin-Core-flavoured schema);
the `Dusky*` wildcard block is carried as the band note, the 30 collar
columns and the dusky count. -/
structure DuskyNeckbandNWRRow where
  occurrenceID : String
  location : Option String
  LocationDescription : Option String
  eventDate : Option String
  eventTime : Option String
  recordedBy : Option String
  DuskyBandNote : Option String
  duskyCollars : List (Option String)
  DuskyCount : Option Int
  Total : Int
  decimalLatitude : Coord
  decimalLongitude : Coord
  deriving DecidableEq

/-- One row of `dfDuskyNeckbandMB` (Migratory Birds schema). -/
structure DuskyNeckbandMBRow where
  globalid : String
  State : Option String
  Date : Option String
  EffortTime : Option String
  Prec : String
  Latdd : Coord
  Longdd : Coord
  Obs : Option String
  SiteName : Option String
  LocationDescription : Option String
  Location : String
  DuskyBandNote : Option String
  duskyCollars : List (Option String)
  Pres : Option Int
  Total : Int
  deriving DecidableEq

/-- The refuge-schema projection of one filtered neckband row. -/
def projNWR (r : JoinedRow) : DuskyNeckbandNWRRow :=
  { occurrenceID := r.2.globalid, location := r.1.SiteName,
    LocationDescription := r.2.LocationDescription,
    eventDate := r.1.EffortDate_Text, eventTime := r.2.EffortTime,
    recordedBy := ObserverText r.1,
    DuskyBandNote := r.2.DuskyBandNote.map String.toUpper,
    duskyCollars := upperCollarVals r.2, DuskyCount := r.2.DuskyCount,
    Total := Total r, decimalLatitude := LatitudeDD r,
    decimalLongitude := LongitudeDD r }

/-- The Migratory Birds projection of one filtered neckband row (`Prec` is the
constant `'0'`). -/
def projMB (r : JoinedRow) : DuskyNeckbandMBRow :=
  { globalid := r.2.globalid, State := State r.1, Date := r.1.EffortDate_Text,
    EffortTime := r.2.EffortTime, Prec := "0", Latdd := LatitudeDD r,
    Longdd := LongitudeDD r, Obs := ObserverText r.1, SiteName := r.1.SiteName,
    LocationDescription := r.2.LocationDescription,
    Location := GooseMarkResight.Location r,
    DuskyBandNote := r.2.DuskyBandNote.map String.toUpper,
    duskyCollars := upperCollarVals r.2, Pres := r.2.DuskyCount, Total := Total r }

/-- `dfDuskyNeckbandNWR`: the refuge export, projected from the filtered
neckband rows. -/
def dfDuskyNeckbandNWR (j : List JoinedRow) : List DuskyNeckbandNWRRow :=
  (dfDuskyNeckbandRows j).map projNWR

/-- `dfDuskyNeckbandMB`: the Migratory Birds export, projected from the
filtered neckband rows. -/
def dfDuskyNeckbandMB (j : List JoinedRow) : List DuskyNeckbandMBRow :=
  (dfDuskyNeckbandRows j).map projMB

theorem isSome_getD_upperCollarVals (o : ObservationPointRow) (i : Nat) :
    ((upperCollarVals o).getD i none).isSome
      = ((duskyCollarFields o).getD i none).isSome := by
  rw [upperCollarVals, List.getD_eq_get?, List.getD_eq_get?, List.get?_map]
  cases (duskyCollarFields o).get? i with
  | none => rfl
  | some x => cases x <;> rfl

theorem dusky_filter_pred_eq (j : List JoinedRow) (r : JoinedRow) (hr : r ∈ j) :
    (!((survivingIdx j).map (fun i => (upperCollarVals r.2).getD i none)).all
        (fun v => v.isNone))
      = (duskyCollarFields r.2).any (fun v => v.isSome) := by
  cases hany : (duskyCollarFields r.2).any (fun v => v.isSome) with
  | false =>
      rw [List.any_eq_false] at hany
      have hnone : ∀ i : Nat, (upperCollarVals r.2).getD i none = none := by
        intro i
        rw [upperCollarVals, List.getD_eq_get?, List.get?_map]
        cases hg : (duskyCollarFields r.2).get? i with
        | none => rfl
        | some x =>
            have hx := hany x (List.get?_mem hg)
            cases x with
            | none => rfl
            | some s => exact absurd rfl hx
      have hX : ((survivingIdx j).map (fun i => (upperCollarVals r.2).getD i none)).all
          (fun v => v.isNone) = true := by
        rw [List.all_eq_true]
        intro v hv
        obtain ⟨i, -, rfl⟩ := List.mem_map.mp hv
        rw [hnone i]
        rfl
      rw [hX]
      rfl
  | true =>
      rw [List.any_eq_true] at hany
      obtain ⟨v, hv, hvs⟩ := hany
      obtain ⟨n, rfl⟩ := List.mem_iff_get.mp hv
      have hsurv : n.1 ∈ survivingIdx j := by
        rw [survivingIdx, List.mem_filter]
        refine ⟨List.mem_range.mpr n.2, ?_⟩
        rw [collarColSurvives, List.any_eq_true]
        refine ⟨r, hr, ?_⟩
        rw [List.getD_eq_get?, List.get?_eq_get n.2]
        exact hvs
      have hmem : ((upperCollarVals r.2).getD n.1 none)
          ∈ (survivingIdx j).map (fun i => (upperCollarVals r.2).getD i none) :=
        List.mem_map.mpr ⟨n.1, hsurv, rfl⟩
      have hsome : ((upperCollarVals r.2).getD n.1 none).isSome = true := by
        rw [isSome_getD_upperCollarVals, List.getD_eq_get?, List.get?_eq_get n.2]
        exact hvs
      cases hX : ((survivingIdx j).map (fun i => (upperCollarVals r.2).getD i none)).all
          (fun v => v.isNone) with
      | false => rfl
      | true =>
          have hn := List.all_eq_true.mp hX _ hmem
          cases hval : (upperCollarVals r.2).getD n.1 none with
          | none => rw [hval] at hsome; exact absurd hsome (by simp)
          | some s => rw [hval] at hn; exact absurd hn (by simp)

/-- C5: each neckband export equals the projection of exactly the joined rows
having at least one non-null `DuskyCollar` field among the 30; a joined row
whose `DuskyCollar` fields are all null is dropped from both exports before
projection. -/
theorem neckband_exports_require_collar (j : List JoinedRow) :
    dfDuskyNeckbandNWR j
      = (j.filter (fun r => (duskyCollarFields r.2).any (fun v => v.isSome))).map projNWR ∧
    dfDuskyNeckbandMB j
      = (j.filter (fun r => (duskyCollarFields r.2).any (fun v => v.isSome))).map projMB := by
  have hrows : dfDuskyNeckbandRows j
      = j.filter (fun r => (duskyCollarFields r.2).any (fun v => v.isSome)) := by
    rw [dfDuskyNeckbandRows]
    exact List.filter_congr (fun r hr => dusky_filter_pred_eq j r hr)
  exact ⟨by rw [dfDuskyNeckbandNWR, hrows], by rw [dfDuskyNeckbandMB, hrows]⟩
